import Mathlib

/-
Verification of the sentiment-analysis client in llm_sentiment.py.

The script has two parts:
  * get_llm_sentiment (lines 24-84): an HTTP retry loop around an
    inference endpoint, plus a parsing heuristic turning the model text
    into one of three labels or an error string;
  * a module-level batch driver (lines 87-144): reads a CSV, checks the
    required columns, classifies each row in order, and writes the
    augmented rows to an output CSV.

The embedding below is shallow: the endpoint is a parameter giving, for
each attempt index, the observable outcome of one HTTP POST; side
effects (the POST itself, time.sleep) are recorded as an event trace.
Python string operations used by the parser (strip, title, the in
operator) are modelled over lists of characters, faithful to their
CPython behaviour on ASCII text.
-/

namespace LlmSentiment

/-- The outcomes of one HTTP POST to the inference endpoint on which
get_llm_sentiment itself produces a value. `transportFailure` is any
requests.RequestException raised by requests.post or by
response.raise_for_status, so connection errors, timeouts, and non-2xx
statuses. `invalidJson` is a 2xx response whose body response.json()
cannot decode: requests (since 2.27) raises
requests.exceptions.JSONDecodeError there, a subclass of
RequestException, so the code handles it in the same except branch.
`ok field` is a 2xx response whose body decodes to a JSON object whose
"response" value, when present, is a string; `field` is that value
(response_data.get gives the empty-string default when the key is
absent). A 2xx body outside this space makes get_llm_sentiment raise:
see ApiResponseFull, which extends this type with those behaviours. -/
inductive ApiResponse
  | transportFailure
  | invalidJson
  | ok (field : Option String)
deriving DecidableEq, Repr

/-- Observable side effects of get_llm_sentiment: one HTTP POST per
attempt (requests.post, line 47), and time.sleep(delay) (line 79). -/
inductive Event
  | call (attempt : Nat)
  | sleep (seconds : Nat)
deriving DecidableEq, Repr

/-- Number of endpoint calls in a trace. -/
def callCount : List Event → Nat
  | [] => 0
  | Event.call _ :: rest => callCount rest + 1
  | Event.sleep _ :: rest => callCount rest

/-- The call events for attempts a, a+1, ..., a+n-1, used to state the
shape of a fully failing run. -/
def callsFrom (a : Nat) : Nat → List Event
  | 0 => []
  | n + 1 => Event.call a :: callsFrom (a + 1) n

/-- Characters stripped by Python str.strip() with no argument
(ASCII whitespace). -/
def isPyWhitespace (c : Char) : Bool :=
  c = ' ' || c = '\t' || c = '\n' || c = '\r' || c = '\x0b' || c = '\x0c'

/-- Remove leading whitespace characters. -/
def dropWhileWs : List Char → List Char
  | [] => []
  | c :: rest => if isPyWhitespace c then dropWhileWs rest else c :: rest

/-- Python str.strip(): remove leading and trailing whitespace. -/
def pyStrip (l : List Char) : List Char :=
  (dropWhileWs (dropWhileWs l).reverse).reverse

/-- Python str.title() on ASCII text: a letter that follows a letter is
lowercased, any other letter is uppercased, other characters pass
through unchanged. `prevAlpha` says whether the previous character was a
letter. -/
def pyTitleGo (prevAlpha : Bool) : List Char → List Char
  | [] => []
  | c :: rest =>
    if c.isAlpha then
      (if prevAlpha then c.toLower else c.toUpper) :: pyTitleGo true rest
    else
      c :: pyTitleGo false rest

/-- Python str.title(). -/
def pyTitle (l : List Char) : List Char := pyTitleGo false l

/-- Boolean test that `pat` is an initial segment of `l`. -/
def leadsWith : List Char → List Char → Bool
  | [], _ => true
  | _ :: _, [] => false
  | a :: as, b :: bs => a = b && leadsWith as bs

/-- Python substring test `pat in l`: `pat` occurs contiguously in `l`. -/
def containsSub (pat : List Char) : List Char → Bool
  | [] => leadsWith pat []
  | c :: rest => leadsWith pat (c :: rest) || containsSub pat rest

/-- The text the parser works on: response_data.get("response", "")
followed by .strip() and .title() (lines 56 and 60). A missing field
gives the empty string. -/
def normalizedText (field : Option String) : List Char :=
  pyTitle (pyStrip (field.getD "").toList)

/-- Lines 55-73 of get_llm_sentiment: parse one successful response.
Exact membership in the three labels returns the normalized text itself;
otherwise the three substring checks run in the fixed order Positive,
Negative, Neutral; otherwise the parse-failure string is returned. -/
def parseResponse (field : Option String) : String :=
  if normalizedText field = "Positive".toList ∨
      normalizedText field = "Negative".toList ∨
      normalizedText field = "Neutral".toList then
    String.mk (normalizedText field)
  else if containsSub "Positive".toList (normalizedText field) then "Positive"
  else if containsSub "Negative".toList (normalizedText field) then "Negative"
  else if containsSub "Neutral".toList (normalizedText field) then "Neutral"
  else "Error: Parse Failed"

/-- What one iteration of the try block produces: a returned string for a
2xx response with a decodable body, or none when a RequestException sends
control to the except branch (lines 75-82). -/
def attemptOutcome (r : ApiResponse) : Option String :=
  match r with
  | ApiResponse.ok field => some (parseResponse field)
  | ApiResponse.transportFailure => none
  | ApiResponse.invalidJson => none

/-- The retry loop of get_llm_sentiment (lines 44-84). `attempt` is the
Python loop variable; `fuel` is the number of loop iterations still to
run, so the Python guard `attempt < retries - 1` is `fuel - 1 ≠ 0` here.
With fuel 0 the for loop body never runs and line 84 returns the
Max Retries string. The returned trace lists the POSTs and sleeps in
order. -/
def sentimentLoop (endpoint : Nat → ApiResponse) (delay : Nat) :
    Nat → Nat → String × List Event
  | _, 0 => ("Error: Max Retries", [])
  | attempt, n + 1 =>
    match attemptOutcome (endpoint attempt) with
    | some r => (r, [Event.call attempt])
    | none =>
      if n = 0 then
        ("Error: API Failed", [Event.call attempt])
      else
        let t := sentimentLoop endpoint delay (attempt + 1) n
        (t.1, Event.call attempt :: Event.sleep delay :: t.2)

/-- get_llm_sentiment(review_text, retries, delay). The review text only
enters the prompt sent to the endpoint, so the endpoint parameter
already accounts for it; retries is an int in Python and range(retries)
is empty for any non-positive value, hence Int.toNat. Defaults in the
source are retries=3, delay=5. -/
def get_llm_sentiment (endpoint : Nat → ApiResponse) (retries : Int)
    (delay : Nat) : String × List Event :=
  sentimentLoop endpoint delay 0 retries.toNat

/-- The five strings the spec closed enumeration corresponds to in the
code: the three labels plus the two error returns of lines 73 and 82. -/
def closedEnumeration : List String :=
  ["Positive", "Negative", "Neutral", "Error: Parse Failed", "Error: API Failed"]

/-- The full outcome space of one HTTP POST, including the 2xx bodies on
which get_llm_sentiment raises. `badShape` is a 2xx response whose body
decodes to JSON that is not an object (for example a list, a string, or
null, where response_data.get at line 56 raises AttributeError) or to an
object whose "response" value is present but not a string (for example
null or a number, where .strip() at line 56 raises AttributeError).
AttributeError is not a RequestException, so the except branch of lines
75-82 does not catch it and the exception escapes get_llm_sentiment.
The other three constructors are as in ApiResponse. -/
inductive ApiResponseFull
  | transportFailure
  | invalidJson
  | badShape
  | ok (field : Option String)
deriving DecidableEq, Repr

/-- How one call of get_llm_sentiment ends in the full model: either the
function returns a string, or an exception other than RequestException
propagates out of it (the AttributeError of line 56). -/
inductive CallOutcome
  | returns (s : String)
  | raises
deriving DecidableEq, Repr

/-- The inclusion of the restricted endpoint outcomes into the full
ones. -/
def toFull : ApiResponse → ApiResponseFull
  | ApiResponse.transportFailure => ApiResponseFull.transportFailure
  | ApiResponse.invalidJson => ApiResponseFull.invalidJson
  | ApiResponse.ok field => ApiResponseFull.ok field

/-- The retry loop of lines 44-84 over the full outcome space. A
conforming 2xx body returns the parsed result; a badShape body makes the
AttributeError of line 56 escape after the POST of that attempt, with no
retry and no further event; a RequestException takes the retry path of
lines 75-82 exactly as in sentimentLoop. -/
def sentimentLoopFull (endpoint : Nat → ApiResponseFull) (delay : Nat) :
    Nat → Nat → CallOutcome × List Event
  | _, 0 => (CallOutcome.returns "Error: Max Retries", [])
  | attempt, n + 1 =>
    match endpoint attempt with
    | ApiResponseFull.ok field =>
      (CallOutcome.returns (parseResponse field), [Event.call attempt])
    | ApiResponseFull.badShape => (CallOutcome.raises, [Event.call attempt])
    | ApiResponseFull.transportFailure | ApiResponseFull.invalidJson =>
      if n = 0 then
        (CallOutcome.returns "Error: API Failed", [Event.call attempt])
      else
        let t := sentimentLoopFull endpoint delay (attempt + 1) n
        (t.1, Event.call attempt :: Event.sleep delay :: t.2)

/-- get_llm_sentiment over the full outcome space of the endpoint. -/
def get_llm_sentiment_full (endpoint : Nat → ApiResponseFull)
    (retries : Int) (delay : Nat) : CallOutcome × List Event :=
  sentimentLoopFull endpoint delay 0 retries.toNat

/-- One output record (lines 106-110): ProductID and ReviewText copied
from the input row, Sentiment from the classifier. -/
structure ResultRow where
  productID : String
  reviewText : String
  sentiment : String
deriving DecidableEq, Repr

/-- Why the driver aborts: FileNotFoundError (line 112) or the ValueError
raised for a missing required column (line 96). -/
inductive AbortReason
  | inputNotFound
  | schemaInvalid
deriving DecidableEq, Repr

/-- The input as the driver sees it: either the file is missing, or it is
a CSV whose DictReader yields the header fieldnames and one dictionary
per data row (modelled as an association list from column name to cell
value). -/
inductive InputFile
  | missing
  | table (fieldnames : List String) (rows : List (List (String × String)))

/-- The rows of an input, empty when the file is missing. -/
def inputRows : InputFile → List (List (String × String))
  | InputFile.missing => []
  | InputFile.table _ rows => rows

/-- Observable outcome of one run of the script. `apiCalls` counts every
endpoint POST made during the run; `attemptedWrite` says the output
section ran (line 132: results was nonempty); `written` is the content
of the output file when writing succeeded; `writeFailureReported` says
the IOError message of line 142 was printed. -/
structure MainResult where
  aborted : Option AbortReason
  results : List ResultRow
  apiCalls : Nat
  attemptedWrite : Bool
  written : Option (List ResultRow)
  writeFailureReported : Bool
deriving DecidableEq, Repr

/-- The per-row loop of lines 98-110: classify each row in order with the
default retries=3, delay=5, building one ResultRow per input row and
counting the endpoint calls. `endpoint i` is the endpoint behaviour seen
while classifying row `i` (row indices start at `i0`). DictReader
guarantees every fieldname is a key of every row dictionary, so the
lookups are total; getD gives the looked-up cell value. -/
def processRows (endpoint : Nat → Nat → ApiResponse) :
    Nat → List (List (String × String)) → List ResultRow × Nat
  | _, [] => ([], 0)
  | i0, row :: rest =>
    let cls := get_llm_sentiment (endpoint i0) 3 5
    let tail := processRows endpoint (i0 + 1) rest
    ({ productID := (row.lookup "ProductID").getD ""
       reviewText := (row.lookup "ReviewText").getD ""
       sentiment := cls.1 } :: tail.1,
     callCount cls.2 + tail.2)

/-- The module-level driver (lines 87-144). A missing file or a missing
required column aborts (exit) before any row is processed; otherwise all
rows are classified, and the output section runs exactly when at least
one result was collected. `writeFails` says the DictWriter raises
IOError; that failure is reported and nothing else changes. -/
def runScript (input : InputFile) (endpoint : Nat → Nat → ApiResponse)
    (writeFails : Bool) : MainResult :=
  match input with
  | InputFile.missing =>
    { aborted := some AbortReason.inputNotFound, results := [], apiCalls := 0,
      attemptedWrite := false, written := none, writeFailureReported := false }
  | InputFile.table fieldnames rows =>
    if "ProductID" ∈ fieldnames ∧ "ReviewText" ∈ fieldnames then
      let p := processRows endpoint 0 rows
      { aborted := none, results := p.1, apiCalls := p.2,
        attemptedWrite := !p.1.isEmpty,
        written := if !p.1.isEmpty && !writeFails then some p.1 else none,
        writeFailureReported := !p.1.isEmpty && writeFails }
    else
      { aborted := some AbortReason.schemaInvalid, results := [], apiCalls := 0,
        attemptedWrite := false, written := none, writeFailureReported := false }

/-- One-step unfolding of the retry loop on a positive fuel value. -/
theorem sentimentLoop_succ (e : Nat → ApiResponse) (d a n : Nat) :
    sentimentLoop e d a (n + 1) =
      match attemptOutcome (e a) with
      | some r => (r, [Event.call a])
      | none =>
        if n = 0 then
          ("Error: API Failed", [Event.call a])
        else
          ((sentimentLoop e d (a + 1) n).1,
            Event.call a :: Event.sleep d :: (sentimentLoop e d (a + 1) n).2) := rfl

/-- Every value of the per-response parser is one of the three labels or
the parse-failure string. -/
theorem parseResponse_mem (f : Option String) :
    parseResponse f ∈ ["Positive", "Negative", "Neutral", "Error: Parse Failed"] := by
  unfold parseResponse
  split_ifs with h1 h2 h3 h4
  · rcases h1 with h | h | h <;> rw [h] <;> decide
  · decide
  · decide
  · decide
  · decide

/-- Any run of the retry loop with at least one attempt allowed yields one
of the five strings of the closed enumeration. -/
theorem sentimentLoop_mem (e : Nat → ApiResponse) (d : Nat) :
    ∀ n a, 0 < n → (sentimentLoop e d a n).1 ∈ closedEnumeration := by
  intro n
  induction n with
  | zero => intro a h; exact absurd h (by omega)
  | succ m ih =>
    intro a _
    cases he : e a with
    | ok f =>
      simp only [sentimentLoop, attemptOutcome, he]
      have h4 := parseResponse_mem f
      simp only [List.mem_cons, List.not_mem_nil, or_false] at h4
      simp only [closedEnumeration, List.mem_cons, List.not_mem_nil, or_false]
      tauto
    | transportFailure =>
      simp only [sentimentLoop, attemptOutcome, he]
      split_ifs with hm
      · exact (by decide : ("Error: API Failed" : String) ∈ closedEnumeration)
      · exact ih (a + 1) (Nat.pos_of_ne_zero hm)
    | invalidJson =>
      simp only [sentimentLoop, attemptOutcome, he]
      split_ifs with hm
      · exact (by decide : ("Error: API Failed" : String) ∈ closedEnumeration)
      · exact ih (a + 1) (Nat.pos_of_ne_zero hm)

/-- When every attempt raises a RequestException, the loop returns the
API-failure string and its trace alternates calls and sleeps, ending with
a call. -/
theorem sentimentLoop_allFail (e : Nat → ApiResponse) (d : Nat)
    (hf : ∀ k, e k = ApiResponse.transportFailure) :
    ∀ n a, sentimentLoop e d a (n + 1) =
      ("Error: API Failed", List.intersperse (Event.sleep d) (callsFrom a (n + 1))) := by
  intro n
  induction n with
  | zero =>
    intro a
    simp [sentimentLoop, attemptOutcome, hf a, callsFrom, List.intersperse_singleton]
  | succ m ih =>
    intro a
    rw [sentimentLoop_succ, hf a]
    simp only [attemptOutcome]
    rw [if_neg (Nat.succ_ne_zero m), ih (a + 1)]
    simp [callsFrom, List.intersperse_cons_cons]

/-- Interspersing sleeps does not change the number of calls. -/
theorem callCount_intersperse (d : Nat) (l : List Event) :
    callCount (List.intersperse (Event.sleep d) l) = callCount l := by
  induction l with
  | nil => rfl
  | cons x t ih =>
    cases t with
    | nil => rfl
    | cons y t2 =>
      rw [List.intersperse_cons_cons]
      cases x <;> simp [callCount, ih]

/-- callsFrom lists exactly n calls. -/
theorem callCount_callsFrom : ∀ n a, callCount (callsFrom a n) = n := by
  intro n
  induction n with
  | zero => intro a; rfl
  | succ m ih => intro a; simp [callsFrom, callCount, ih (a + 1)]

/-- A successful first attempt short-circuits the loop: one call, no
sleep, and the parsed result. -/
theorem sentimentLoop_first_ok (e : Nat → ApiResponse) (d : Nat)
    (f : Option String) (hf : e 0 = ApiResponse.ok f) (n : Nat) :
    sentimentLoop e d 0 (n + 1) = (parseResponse f, [Event.call 0]) := by
  simp [sentimentLoop, attemptOutcome, hf]

/-- get_llm_sentiment with a successful first attempt and a positive retry
budget returns the parsed response after exactly one call. -/
theorem get_llm_sentiment_first_ok (e : Nat → ApiResponse) (d : Nat)
    (f : Option String) (retries : Int) (hr : 1 ≤ retries)
    (hf : e 0 = ApiResponse.ok f) :
    get_llm_sentiment e retries d = (parseResponse f, [Event.call 0]) := by
  obtain ⟨m, hm⟩ : ∃ m, retries.toNat = m + 1 := ⟨retries.toNat - 1, by omega⟩
  unfold get_llm_sentiment
  rw [hm]
  exact sentimentLoop_first_ok e d f hf m

/-- One-step unfolding of the full retry loop on a positive fuel
value. -/
theorem sentimentLoopFull_succ (e : Nat → ApiResponseFull) (d a n : Nat) :
    sentimentLoopFull e d a (n + 1) =
      match e a with
      | ApiResponseFull.ok field =>
        (CallOutcome.returns (parseResponse field), [Event.call a])
      | ApiResponseFull.badShape => (CallOutcome.raises, [Event.call a])
      | ApiResponseFull.transportFailure | ApiResponseFull.invalidJson =>
        if n = 0 then
          (CallOutcome.returns "Error: API Failed", [Event.call a])
        else
          ((sentimentLoopFull e d (a + 1) n).1,
            Event.call a :: Event.sleep d :: (sentimentLoopFull e d (a + 1) n).2) :=
  rfl

/-- On endpoint behaviours of the restricted model the full loop raises
nothing and computes exactly what the restricted loop computes: the
restricted model is the restriction of the full one to the behaviours on
which no exception escapes. -/
theorem sentimentLoopFull_agrees (e : Nat → ApiResponse) (d : Nat) :
    ∀ n a, sentimentLoopFull (fun k => toFull (e k)) d a n =
      (CallOutcome.returns (sentimentLoop e d a n).1, (sentimentLoop e d a n).2) := by
  intro n
  induction n with
  | zero => intro a; rfl
  | succ m ih =>
    intro a
    cases he : e a with
    | ok f => simp [sentimentLoopFull, sentimentLoop, toFull, attemptOutcome, he]
    | transportFailure =>
      simp only [sentimentLoopFull, sentimentLoop, attemptOutcome, he,
        show toFull ApiResponse.transportFailure = ApiResponseFull.transportFailure from rfl]
      by_cases hm : m = 0
      · subst hm; simp
      · rw [if_neg hm, if_neg hm, ih (a + 1)]
    | invalidJson =>
      simp only [sentimentLoopFull, sentimentLoop, attemptOutcome, he,
        show toFull ApiResponse.invalidJson = ApiResponseFull.invalidJson from rfl]
      by_cases hm : m = 0
      · subst hm; simp
      · rw [if_neg hm, if_neg hm, ih (a + 1)]

/-- When no attempt meets a non-conforming 2xx body, any run of the full
loop with at least one attempt allowed returns (rather than raises) one
of the five strings of the closed enumeration. -/
theorem sentimentLoopFull_returns (e : Nat → ApiResponseFull) (d : Nat)
    (h : ∀ k, e k ≠ ApiResponseFull.badShape) :
    ∀ n a, 0 < n → ∃ s, (sentimentLoopFull e d a n).1 = CallOutcome.returns s ∧
      s ∈ closedEnumeration := by
  intro n
  induction n with
  | zero => intro a hpos; exact absurd hpos (by omega)
  | succ m ih =>
    intro a _
    cases he : e a with
    | badShape => exact absurd he (h a)
    | ok f =>
      simp only [sentimentLoopFull, he]
      refine ⟨parseResponse f, rfl, ?_⟩
      have h4 := parseResponse_mem f
      simp only [List.mem_cons, List.not_mem_nil, or_false] at h4
      simp only [closedEnumeration, List.mem_cons, List.not_mem_nil, or_false]
      tauto
    | transportFailure =>
      simp only [sentimentLoopFull, he]
      split_ifs with hm
      · exact ⟨"Error: API Failed", rfl, by decide⟩
      · exact ih (a + 1) (Nat.pos_of_ne_zero hm)
    | invalidJson =>
      simp only [sentimentLoopFull, he]
      split_ifs with hm
      · exact ⟨"Error: API Failed", rfl, by decide⟩
      · exact ih (a + 1) (Nat.pos_of_ne_zero hm)

/-- C1 as amended: with the default retries=3, classify never throws and
returns one of the five values of the closed enumeration for every
endpoint behaviour in which each 2xx body decodes to a JSON object whose
"response" value, when present, is a string; but on a 2xx body decoding
to anything else, line 56 raises an uncaught AttributeError, so over the
full behaviour space classify can throw (see the counterexample). -/
theorem classify_total_unless_nonconforming_body (e : Nat → ApiResponseFull)
    (h : ∀ k, e k ≠ ApiResponseFull.badShape) :
    ∃ s, (get_llm_sentiment_full e 3 5).1 = CallOutcome.returns s ∧
      s ∈ closedEnumeration :=
  sentimentLoopFull_returns e 5 h 3 0 (by decide)

/-- Witness for C1 as amended at a concrete conforming endpoint. -/
theorem classify_total_unless_nonconforming_body_witness :
    ∃ s, (get_llm_sentiment_full (fun _ => ApiResponseFull.ok (some "Positive")) 3 5).1 =
      CallOutcome.returns s ∧ s ∈ closedEnumeration :=
  classify_total_unless_nonconforming_body
    (fun _ => ApiResponseFull.ok (some "Positive"))
    (fun _ h => ApiResponseFull.noConfusion h)

/-- Counterexample to C1 as stated: an endpoint whose 2xx bodies decode
to JSON of the wrong shape makes classify raise AttributeError at the
first attempt (one call, no retry), so it throws and returns none of the
five values of the closed enumeration. -/
theorem classify_raises_on_nonconforming_body :
    (get_llm_sentiment_full (fun _ => ApiResponseFull.badShape) 3 5).1 =
      CallOutcome.raises ∧
    CallOutcome.raises ∉ closedEnumeration.map CallOutcome.returns ∧
    (get_llm_sentiment_full (fun _ => ApiResponseFull.badShape) 3 5).2 =
      [Event.call 0] := by
  decide

/-- C2: when the endpoint fails with a transport or HTTP failure on every
attempt, classify makes exactly `retries` calls, sleeps `delay` between
consecutive calls and not after the last one (the trace is the calls for
attempts 0..retries-1 interspersed with sleeps), and returns the
API-failure marker. -/
theorem classify_all_fail_retry_trace (e : Nat → ApiResponse)
    (retries : Int) (d : Nat)
    (hf : ∀ k, e k = ApiResponse.transportFailure) (hr : 1 ≤ retries) :
    (get_llm_sentiment e retries d).1 = "Error: API Failed" ∧
    (get_llm_sentiment e retries d).2 =
      List.intersperse (Event.sleep d) (callsFrom 0 retries.toNat) ∧
    callCount (get_llm_sentiment e retries d).2 = retries.toNat := by
  obtain ⟨m, hm⟩ : ∃ m, retries.toNat = m + 1 := ⟨retries.toNat - 1, by omega⟩
  unfold get_llm_sentiment
  rw [hm, sentimentLoop_allFail e d hf m 0]
  exact ⟨rfl, rfl, by rw [callCount_intersperse, callCount_callsFrom]⟩

/-- Witness for C2 at a concrete always-failing endpoint with the default
retries=3, delay=5. -/
theorem classify_all_fail_retry_trace_witness :
    (get_llm_sentiment (fun _ => ApiResponse.transportFailure) 3 5).1 = "Error: API Failed" ∧
    (get_llm_sentiment (fun _ => ApiResponse.transportFailure) 3 5).2 =
      List.intersperse (Event.sleep 5) (callsFrom 0 (3 : Int).toNat) ∧
    callCount (get_llm_sentiment (fun _ => ApiResponse.transportFailure) 3 5).2 =
      (3 : Int).toNat :=
  classify_all_fail_retry_trace (fun _ => ApiResponse.transportFailure) 3 5
    (fun _ => rfl) (by decide)

/-- C9: with a non-positive retry count the for loop body never runs, so
no endpoint call happens and the function falls through to the final
return of the Max Retries string, a value outside the closed enumeration;
with at least one retry that return is unreachable. -/
theorem zero_retries_outside_enumeration (e : Nat → ApiResponse)
    (d : Nat) (retries : Int) :
    (retries ≤ 0 → get_llm_sentiment e retries d = ("Error: Max Retries", [])) ∧
    (1 ≤ retries → (get_llm_sentiment e retries d).1 ≠ "Error: Max Retries") ∧
    "Error: Max Retries" ∉ closedEnumeration := by
  refine ⟨?_, ?_, by decide⟩
  · intro h
    have hz : retries.toNat = 0 := by omega
    unfold get_llm_sentiment
    rw [hz]
    rfl
  · intro h hcontra
    obtain ⟨m, hm⟩ : ∃ m, retries.toNat = m + 1 := ⟨retries.toNat - 1, by omega⟩
    have hmem := sentimentLoop_mem e d (m + 1) 0 (Nat.succ_pos m)
    unfold get_llm_sentiment at hcontra
    rw [hm] at hcontra
    rw [hcontra] at hmem
    exact absurd hmem (by decide)

/-- Witness for C9: with retries 0 nothing is called and the Max Retries
string comes back; with the default retries 3 it cannot. -/
theorem zero_retries_outside_enumeration_witness :
    get_llm_sentiment (fun _ => ApiResponse.ok (some "Positive")) 0 5 =
      ("Error: Max Retries", []) ∧
    (get_llm_sentiment (fun _ => ApiResponse.ok (some "Positive")) 3 5).1 ≠
      "Error: Max Retries" :=
  ⟨(zero_retries_outside_enumeration (fun _ => ApiResponse.ok (some "Positive")) 5 0).1
      (by decide),
   (zero_retries_outside_enumeration (fun _ => ApiResponse.ok (some "Positive")) 5 3).2.1
      (by decide)⟩

/-- C3: when the first attempt succeeds and the stripped, title-cased
response text exactly equals one of the three labels, classify returns
that label. Title-casing makes the comparison case-insensitive, so a raw
response of NEGATIVE yields Negative (see the witness). -/
theorem classify_exact_label (e : Nat → ApiResponse) (f : Option String)
    (retries : Int) (d : Nat) (L : String)
    (hf : e 0 = ApiResponse.ok f) (hr : 1 ≤ retries)
    (hL : L ∈ ["Positive", "Negative", "Neutral"])
    (ht : normalizedText f = L.toList) :
    (get_llm_sentiment e retries d).1 = L := by
  rw [get_llm_sentiment_first_ok e d f retries hr hf]
  show parseResponse f = L
  simp only [List.mem_cons, List.not_mem_nil, or_false] at hL
  unfold parseResponse
  rw [ht]
  rcases hL with h | h | h <;> rw [h] <;> decide

/-- Witness for C3: a raw response of NEGATIVE gives Negative. -/
theorem classify_exact_label_witness :
    (get_llm_sentiment (fun _ => ApiResponse.ok (some "NEGATIVE")) 3 5).1 = "Negative" :=
  classify_exact_label (fun _ => ApiResponse.ok (some "NEGATIVE"))
    (some "NEGATIVE") 3 5 "Negative" rfl (by decide) (by decide) (by decide)

/-- C4: when the normalized response text equals none of the three labels,
the substring checks run in the fixed order Positive, Negative, Neutral
and the first label occurring in the text wins, regardless of where the
labels sit in the text. -/
theorem classify_substring_fixed_order (e : Nat → ApiResponse)
    (f : Option String) (retries : Int) (d : Nat)
    (hf : e 0 = ApiResponse.ok f) (hr : 1 ≤ retries)
    (hne : ¬(normalizedText f = "Positive".toList ∨
        normalizedText f = "Negative".toList ∨
        normalizedText f = "Neutral".toList)) :
    (containsSub "Positive".toList (normalizedText f) = true →
      (get_llm_sentiment e retries d).1 = "Positive") ∧
    (containsSub "Positive".toList (normalizedText f) = false →
      containsSub "Negative".toList (normalizedText f) = true →
      (get_llm_sentiment e retries d).1 = "Negative") ∧
    (containsSub "Positive".toList (normalizedText f) = false →
      containsSub "Negative".toList (normalizedText f) = false →
      containsSub "Neutral".toList (normalizedText f) = true →
      (get_llm_sentiment e retries d).1 = "Neutral") := by
  rw [get_llm_sentiment_first_ok e d f retries hr hf]
  refine ⟨?_, ?_, ?_⟩
  · intro h1
    show parseResponse f = "Positive"
    unfold parseResponse
    rw [if_neg hne, if_pos h1]
  · intro h1 h2
    show parseResponse f = "Negative"
    unfold parseResponse
    rw [if_neg hne, if_neg (by rw [h1]; decide), if_pos (by rw [h2])]
  · intro h1 h2 h3
    show parseResponse f = "Neutral"
    unfold parseResponse
    rw [if_neg hne, if_neg (by rw [h1]; decide), if_neg (by rw [h2]; decide),
      if_pos (by rw [h3])]

/-- Witness for C4: in a text where Negative appears before Positive, the
fixed check order still returns Positive. -/
theorem classify_substring_fixed_order_witness :
    (get_llm_sentiment (fun _ => ApiResponse.ok (some "negative then positive")) 3 5).1 =
      "Positive" :=
  (classify_substring_fixed_order (fun _ => ApiResponse.ok (some "negative then positive"))
    (some "negative then positive") 3 5 rfl (by decide) (by decide)).1 (by decide)

/-- C5 as amended: a successful response whose JSON body decodes but whose
text (after the missing-field default, strip, and title-case) is not one
of the labels and contains none of them as a substring makes classify
return the parse-failure marker after exactly one call, with no retry.
The invalid-JSON part of the original claim fails: see the
counterexample, where an undecodable body is retried and surfaces as an
API failure. -/
theorem classify_parse_failure_single_attempt (e : Nat → ApiResponse)
    (f : Option String) (retries : Int) (d : Nat)
    (hf : e 0 = ApiResponse.ok f) (hr : 1 ≤ retries)
    (hne : ¬(normalizedText f = "Positive".toList ∨
        normalizedText f = "Negative".toList ∨
        normalizedText f = "Neutral".toList))
    (hp : containsSub "Positive".toList (normalizedText f) = false)
    (hn : containsSub "Negative".toList (normalizedText f) = false)
    (hu : containsSub "Neutral".toList (normalizedText f) = false) :
    get_llm_sentiment e retries d = ("Error: Parse Failed", [Event.call 0]) := by
  rw [get_llm_sentiment_first_ok e d f retries hr hf]
  have : parseResponse f = "Error: Parse Failed" := by
    unfold parseResponse
    rw [if_neg hne, if_neg (by rw [hp]; decide), if_neg (by rw [hn]; decide),
      if_neg (by rw [hu]; decide)]
  rw [this]

/-- Witness for C5 as amended: a successful response with no "response"
field at all (so empty text) is a parse failure after one single call. -/
theorem classify_parse_failure_single_attempt_witness :
    get_llm_sentiment (fun _ => ApiResponse.ok none) 3 5 =
      ("Error: Parse Failed", [Event.call 0]) :=
  classify_parse_failure_single_attempt (fun _ => ApiResponse.ok none) none 3 5
    rfl (by decide) (by decide) (by decide) (by decide) (by decide)

/-- Counterexample to C5 as stated: a 2xx response whose body is not valid
JSON raises JSONDecodeError, a RequestException, so it is retried like a
transport failure and classify returns the API-failure marker after all
three default attempts, not the parse-failure marker without retry. -/
theorem invalid_json_is_retried :
    (get_llm_sentiment (fun _ => ApiResponse.invalidJson) 3 5).1 = "Error: API Failed" ∧
    (get_llm_sentiment (fun _ => ApiResponse.invalidJson) 3 5).1 ≠ "Error: Parse Failed" ∧
    callCount (get_llm_sentiment (fun _ => ApiResponse.invalidJson) 3 5).2 = 3 := by
  decide

/-- C10: the substring fallback runs on the title-cased text, so a label
embedded inside a longer word still matches: the response text
"Positively awful" title-cases to "Positively Awful", which contains
"Positive", and classify returns Positive. -/
theorem title_cased_substring_inside_word :
    (get_llm_sentiment (fun _ => ApiResponse.ok (some "Positively awful")) 3 5).1 =
      "Positive" := by
  decide

/-- The per-row loop produces exactly one result per input row. -/
theorem processRows_length (e : Nat → Nat → ApiResponse) :
    ∀ rows i, ((processRows e i rows).1).length = rows.length := by
  intro rows
  induction rows with
  | nil => intro i; rfl
  | cons r t ih => intro i; simp [processRows, ih (i + 1)]

/-- The j-th result of the per-row loop started at index i comes from the
j-th remaining row, classified with the endpoint behaviour of row i+j. -/
theorem processRows_getElem (e : Nat → Nat → ApiResponse) :
    ∀ rows i j, ((processRows e i rows).1)[j]? = (rows[j]?).map (fun row =>
      { productID := (row.lookup "ProductID").getD ""
        reviewText := (row.lookup "ReviewText").getD ""
        sentiment := (get_llm_sentiment (e (i + j)) 3 5).1 : ResultRow }) := by
  intro rows
  induction rows with
  | nil => intro i j; simp [processRows]
  | cons r t ih =>
    intro i j
    cases j with
    | zero => simp [processRows]
    | succ k =>
      simp only [processRows, List.getElem?_cons_succ]
      rw [ih (i + 1) k]
      have harith : i + 1 + k = i + (k + 1) := by omega
      rw [harith]

/-- Unfolding of the driver on a table input. -/
theorem runScript_table (fn : List String)
    (rows : List (List (String × String))) (e : Nat → Nat → ApiResponse)
    (w : Bool) :
    runScript (InputFile.table fn rows) e w =
      if "ProductID" ∈ fn ∧ "ReviewText" ∈ fn then
        { aborted := none, results := (processRows e 0 rows).1,
          apiCalls := (processRows e 0 rows).2,
          attemptedWrite := !(processRows e 0 rows).1.isEmpty,
          written := if !(processRows e 0 rows).1.isEmpty && !w then
              some (processRows e 0 rows).1
            else none,
          writeFailureReported := !(processRows e 0 rows).1.isEmpty && w }
      else
        { aborted := some AbortReason.schemaInvalid, results := [], apiCalls := 0,
          attemptedWrite := false, written := none, writeFailureReported := false } :=
  rfl

/-- C6: an input table missing either required column makes the run abort
with the schema error before any endpoint call is made and before any
result is produced. -/
theorem missing_column_aborts_before_calls (fn : List String)
    (rows : List (List (String × String))) (e : Nat → Nat → ApiResponse)
    (w : Bool) (h : "ProductID" ∉ fn ∨ "ReviewText" ∉ fn) :
    runScript (InputFile.table fn rows) e w =
      { aborted := some AbortReason.schemaInvalid, results := [], apiCalls := 0,
        attemptedWrite := false, written := none, writeFailureReported := false } := by
  rw [runScript_table, if_neg (by tauto)]

/-- Witness for C6 at a concrete input lacking the ReviewText column. -/
theorem missing_column_aborts_before_calls_witness :
    runScript (InputFile.table ["ProductID"] [[("ProductID", "p1")]])
      (fun _ _ => ApiResponse.ok (some "Neutral")) false =
      { aborted := some AbortReason.schemaInvalid, results := [], apiCalls := 0,
        attemptedWrite := false, written := none, writeFailureReported := false } :=
  missing_column_aborts_before_calls ["ProductID"] [[("ProductID", "p1")]]
    (fun _ _ => ApiResponse.ok (some "Neutral")) false (by decide)

/-- C7: on a well-formed input with at least one row and a successful
write, the run does not abort, the written output is exactly the
collected results, there is one result per input row, and the j-th
result carries the j-th row ProductID and ReviewText cells verbatim with
the classifier verdict for that row as its Sentiment. -/
theorem output_preserves_rows (fn : List String)
    (rows : List (List (String × String))) (e : Nat → Nat → ApiResponse)
    (h1 : "ProductID" ∈ fn) (h2 : "ReviewText" ∈ fn) (h3 : rows ≠ []) :
    (runScript (InputFile.table fn rows) e false).aborted = none ∧
    (runScript (InputFile.table fn rows) e false).written =
      some (runScript (InputFile.table fn rows) e false).results ∧
    ((runScript (InputFile.table fn rows) e false).results).length = rows.length ∧
    ∀ j, ((runScript (InputFile.table fn rows) e false).results)[j]? =
      (rows[j]?).map (fun row =>
        { productID := (row.lookup "ProductID").getD ""
          reviewText := (row.lookup "ReviewText").getD ""
          sentiment := (get_llm_sentiment (e j) 3 5).1 : ResultRow }) := by
  rw [runScript_table, if_pos ⟨h1, h2⟩]
  have hlen := processRows_length e rows 0
  have hne : ((processRows e 0 rows).1).isEmpty = false := by
    cases hp : (processRows e 0 rows).1 with
    | nil => rw [hp] at hlen; exact absurd hlen.symm (by simpa using h3)
    | cons a b => rfl
  refine ⟨rfl, ?_, hlen, ?_⟩
  · show (if !((processRows e 0 rows).1).isEmpty && !false then
        some (processRows e 0 rows).1 else none) = some (processRows e 0 rows).1
    rw [hne]
    rfl
  · intro j
    show ((processRows e 0 rows).1)[j]? = _
    rw [processRows_getElem e rows 0 j]
    simp

/-- Witness for C7 at a concrete two-row input with an endpoint always
answering Neutral. -/
theorem output_preserves_rows_witness :
    ((runScript (InputFile.table ["ProductID", "ReviewText"]
        [[("ProductID", "p1"), ("ReviewText", "good")],
         [("ProductID", "p2"), ("ReviewText", "bad")]])
      (fun _ _ => ApiResponse.ok (some "Neutral")) false).results).length = 2 ∧
    (runScript (InputFile.table ["ProductID", "ReviewText"]
        [[("ProductID", "p1"), ("ReviewText", "good")],
         [("ProductID", "p2"), ("ReviewText", "bad")]])
      (fun _ _ => ApiResponse.ok (some "Neutral")) false).written =
      some (runScript (InputFile.table ["ProductID", "ReviewText"]
        [[("ProductID", "p1"), ("ReviewText", "good")],
         [("ProductID", "p2"), ("ReviewText", "bad")]])
      (fun _ _ => ApiResponse.ok (some "Neutral")) false).results :=
  ⟨(output_preserves_rows ["ProductID", "ReviewText"]
      [[("ProductID", "p1"), ("ReviewText", "good")],
       [("ProductID", "p2"), ("ReviewText", "bad")]]
      (fun _ _ => ApiResponse.ok (some "Neutral"))
      (by decide) (by decide) (by decide)).2.2.1,
   (output_preserves_rows ["ProductID", "ReviewText"]
      [[("ProductID", "p1"), ("ReviewText", "good")],
       [("ProductID", "p2"), ("ReviewText", "bad")]]
      (fun _ _ => ApiResponse.ok (some "Neutral"))
      (by decide) (by decide) (by decide)).2.1⟩

/-- C8: the output stage runs exactly when at least one result was
collected, which happens exactly when the input stage did not abort and
the input had at least one row; a write failure is reported, leaves the
results and the abort status unchanged, and does not abort the run. -/
theorem write_stage_iff_results (input : InputFile)
    (e : Nat → Nat → ApiResponse) :
    ((runScript input e false).attemptedWrite = true ↔
      (runScript input e false).results ≠ []) ∧
    ((runScript input e false).results ≠ [] ↔
      ((runScript input e false).aborted = none ∧ inputRows input ≠ [])) ∧
    (runScript input e true).results = (runScript input e false).results ∧
    (runScript input e true).aborted = (runScript input e false).aborted ∧
    (runScript input e true).attemptedWrite = (runScript input e false).attemptedWrite ∧
    ((runScript input e true).attemptedWrite = true →
      (runScript input e true).writeFailureReported = true ∧
      (runScript input e true).written = none) := by
  cases input with
  | missing => simp [runScript, inputRows]
  | table fn rows =>
    by_cases hc : "ProductID" ∈ fn ∧ "ReviewText" ∈ fn
    · rw [runScript_table, runScript_table, if_pos hc, if_pos hc]
      have hlen := processRows_length e rows 0
      have hiff : (processRows e 0 rows).1 ≠ [] ↔ rows ≠ [] := by
        constructor
        · intro hres hrows
          have hz : ((processRows e 0 rows).1).length = 0 := by rw [hlen, hrows]; rfl
          exact hres (List.length_eq_zero.mp hz)
        · intro hrows hres
          have hz : rows.length = 0 := by rw [← hlen, hres]; rfl
          exact hrows (List.length_eq_zero.mp hz)
      refine ⟨?_, ?_, rfl, rfl, rfl, ?_⟩
      · cases hp : (processRows e 0 rows).1 <;> simp [hp]
      · show (processRows e 0 rows).1 ≠ [] ↔
          ((none : Option AbortReason) = none ∧ inputRows (InputFile.table fn rows) ≠ [])
        rw [show inputRows (InputFile.table fn rows) = rows from rfl]
        simpa using hiff
      · intro hw
        have hb : (!(processRows e 0 rows).1.isEmpty) = true := hw
        simp [hb]
    · rw [runScript_table, runScript_table, if_neg hc, if_neg hc]
      simp [inputRows]

/-- Witness for C8: at a concrete one-row input with a failing write, the
failure is reported and no file content is produced. -/
theorem write_stage_iff_results_witness :
    (runScript (InputFile.table ["ProductID", "ReviewText"]
        [[("ProductID", "p1"), ("ReviewText", "good")]])
      (fun _ _ => ApiResponse.ok (some "Neutral")) true).writeFailureReported = true ∧
    (runScript (InputFile.table ["ProductID", "ReviewText"]
        [[("ProductID", "p1"), ("ReviewText", "good")]])
      (fun _ _ => ApiResponse.ok (some "Neutral")) true).written = none :=
  (write_stage_iff_results (InputFile.table ["ProductID", "ReviewText"]
      [[("ProductID", "p1"), ("ReviewText", "good")]])
    (fun _ _ => ApiResponse.ok (some "Neutral"))).2.2.2.2.2 (by decide)

end LlmSentiment
